import Mathlib

/-!
Shallow embedding of `src/sway-core/src/parse_tree/declaration/trait.rs`:
the trait-declaration lowerer (`TraitDeclaration::parse_from_pair`) and the
interface-signature lowerer (`TraitFn::parse_from_pair`).

External collaborators (identifier lowering, visibility lowering, type
lowering, parameter-list lowering, full function-declaration lowering,
type-parameter resolution, and the two naming-convention predicates) live in
other modules of the repository; they are modelled as an explicit record of
functions (`Sway.Externals`) over which all theorems quantify.

Rust panics (`Option::unwrap` on `None`, and the `unreachable!` arm on an
unexpected grammar tag in the declaration body) are modelled as the `error`
side of `Except Panic _`, with the two panic causes kept distinct so that the
`unreachable!` branch can be reasoned about separately.
-/

namespace Sway

/-- Grammar rule tags (`Rule`) that the lowerer in `trait.rs` inspects; every
other production is collapsed into `other`, since the code never looks at it. -/
inductive Rule : Type where
  | visibility
  | trait_bounds
  | type_params
  | fn_signature
  | fn_decl
  | other (n : Nat)
deriving DecidableEq, Repr

/-- A raw source range, standing for a pest `Span` (`pair.as_span()`). -/
structure SrcSpan : Type where
  startPos : Nat
  endPos : Nat
deriving DecidableEq, Repr

/-- A pest `Pair`: rule tag, source text (`as_str`), source range (`as_span`)
and ordered children (`into_inner`). -/
inductive Pair : Type where
  | mk (rule : Rule) (text : String) (srcSpan : SrcSpan) (children : List Pair)

/-- The rule tag of a pair (`pair.as_rule()`). -/
def Pair.rule : Pair → Rule
  | .mk r _ _ _ => r

/-- The source text of a pair (`pair.as_str()`). -/
def Pair.text : Pair → String
  | .mk _ t _ _ => t

/-- The source range of a pair (`pair.as_span()`). -/
def Pair.srcSpan : Pair → SrcSpan
  | .mk _ _ s _ => s

/-- The ordered children of a pair (`pair.into_inner()`). -/
def Pair.children : Pair → List Pair
  | .mk _ _ _ c => c

/-- `crate::span::Span`: a source range plus the optional originating file
path taken from the build config. -/
structure Span : Type where
  span : SrcSpan
  path : Option String
deriving DecidableEq, Repr

/-- The part of `BuildConfig` the lowerer consumes: `config.path()`. -/
structure BuildConfig : Type where
  path : String
deriving DecidableEq, Repr

/-- An identifier produced by the external `Ident::parse_from_pair`:
its text (`as_str`) and its span (`span()`). -/
structure Ident : Type where
  text : String
  span : Span
deriving DecidableEq, Repr

/-- `Visibility` from the declaration module. -/
inductive Visibility : Type where
  | Public
  | Private
deriving DecidableEq, Repr

/-- The slice of `TypeInfo` that `trait.rs` mentions: the error-recovery
sentinel, tuples (the empty tuple is the default return type), and all other
type expressions collapsed into `other`. -/
inductive TypeInfo : Type where
  | ErrorRecovery
  | Tuple (args : List TypeInfo)
  | other (n : Nat)

/-- Opaque externally-defined function parameter. -/
structure FunctionParameter : Type where
  data : Nat
deriving DecidableEq, Repr

/-- Opaque externally-defined full function declaration (default method). -/
structure FunctionDeclaration : Type where
  data : Nat
deriving DecidableEq, Repr

/-- Opaque externally-defined type parameter. -/
structure TypeParameter : Type where
  data : Nat
deriving DecidableEq, Repr

/-- The warning payloads raised in `trait.rs`, plus an `other` constructor for
warnings produced inside external sub-lowerings. -/
inductive Warning : Type where
  | NonClassCaseTraitName (name : Ident)
  | NonSnakeCaseFunctionName (name : Ident)
  | other (n : Nat)
deriving DecidableEq, Repr

/-- A warning diagnostic: span plus payload (`CompileWarning`). -/
structure CompileWarning : Type where
  span : Span
  content : Warning
deriving DecidableEq, Repr

/-- An error diagnostic. Its payloads are produced only by external
sub-lowerings here, so the content is opaque. -/
inductive CompileError : Type where
  | other (n : Nat) (span : Span)
deriving DecidableEq, Repr

/-- Modelled from the spec: `LoweringResult<T>` (`CompileResult` in the code,
whose definition lives outside `src/`): an optional value plus the ordered
warnings and errors accumulated while producing it. -/
structure CompileResult (T : Type) : Type where
  value : Option T
  warnings : List CompileWarning
  errors : List CompileError

/-- Modelled from the spec: the `ok(value, warnings, errors)` constructor. -/
def ok {T : Type} (value : T) (warnings : List CompileWarning)
    (errors : List CompileError) : CompileResult T :=
  ⟨some value, warnings, errors⟩

/-- Modelled from the spec: the `err(warnings, errors)` constructor — total
failure to produce a value, still carrying diagnostics. -/
def err {T : Type} (warnings : List CompileWarning)
    (errors : List CompileError) : CompileResult T :=
  ⟨none, warnings, errors⟩

/-- The cause of a Rust panic in the lowerer: a failed `Option::unwrap` on the
child iterator, or the `unreachable!` arm on an unexpected body tag. -/
inductive Panic : Type where
  | unwrapFailed
  | unreachableTag
deriving DecidableEq, Repr

/-- The external collaborators consumed by `trait.rs`, as a record of
functions: identifier lowering, visibility lowering, type lowering,
parameter-list lowering, full function-declaration lowering, type-parameter
resolution, and the two naming-convention predicates. -/
structure Externals : Type where
  identParse : Pair → Option BuildConfig → CompileResult Ident
  visibilityParse : Pair → Visibility
  typeInfoParse : Pair → Option BuildConfig → CompileResult TypeInfo
  paramListParse : List Pair → Option BuildConfig → CompileResult (List FunctionParameter)
  fnDeclParse : Pair → Option BuildConfig → CompileResult FunctionDeclaration
  typeParamsParse : Option Pair → Option Pair → Option BuildConfig →
    CompileResult (List TypeParameter)
  is_upper_camel_case : String → Bool
  is_snake_case : String → Bool

/-- The `TraitFn` AST node: one interface-only method signature. -/
structure TraitFn : Type where
  name : Ident
  parameters : List FunctionParameter
  return_type : TypeInfo
  return_type_span : Span

/-- The `TraitDeclaration` AST node. -/
structure TraitDeclaration : Type where
  name : Ident
  interface_surface : List TraitFn
  methods : List FunctionDeclaration
  type_parameters : List TypeParameter
  visibility : Visibility

/-- The `assert_or_warn!` in `TraitFn::parse_from_pair`: the (at most one)
warning appended when the method name fails the snake-case convention.
The warning's span is built from the raw name pair, its payload carries the
lowered identifier (`name.as_str()` is checked). -/
def snakeWarnList (E : Externals) (name_pair : Pair) (name : Ident)
    (path : Option String) : List CompileWarning :=
  if E.is_snake_case name.text then []
  else [⟨⟨name_pair.srcSpan, path⟩, Warning.NonSnakeCaseFunctionName name⟩]

/-- `TraitFn::parse_from_pair`: lower one `fn_signature` node. Children are
consumed in order: keyword, name, parameter list, then optionally a
return-type marker followed by the return-type node. A failed name lowering
returns `err`; a failed parameter-list lowering falls back to the empty list;
a failed return-type lowering falls back to `TypeInfo::ErrorRecovery`. A
missing child at any `unwrap` panics. -/
def TraitFn.parse_from_pair (E : Externals) (pair : Pair)
    (config : Option BuildConfig) : Except Panic (CompileResult TraitFn) :=
  let path := config.map BuildConfig.path
  match pair.children with
  | _fn_keyword :: name_pair :: sigRest =>
    let nameRes := E.identParse name_pair config
    match nameRes.value with
    | none => .ok (err nameRes.warnings nameRes.errors)
    | some name =>
      let warnings := nameRes.warnings ++ snakeWarnList E name_pair name path
      match sigRest with
      | [] => .error Panic.unwrapFailed
      | params_pair :: afterParams =>
        let pRes := E.paramListParse params_pair.children config
        let warnings := warnings ++ pRes.warnings
        let errors := nameRes.errors ++ pRes.errors
        let parameters := pRes.value.getD []
        match afterParams with
        | [] =>
          .ok (ok { name := name, parameters := parameters,
                    return_type := TypeInfo.Tuple [],
                    return_type_span := ⟨pair.srcSpan, path⟩ } warnings errors)
        | _return_type_signal :: afterSignal =>
          match afterSignal with
          | [] => .error Panic.unwrapFailed
          | type_pair :: _ =>
            let tRes := E.typeInfoParse type_pair config
            .ok (ok { name := name, parameters := parameters,
                      return_type := tRes.value.getD TypeInfo.ErrorRecovery,
                      return_type_span := ⟨type_pair.srcSpan, path⟩ }
                 (warnings ++ tRes.warnings) (errors ++ tRes.errors))
  | _ => .error Panic.unwrapFailed

/-- The `assert_or_warn!` in `TraitDeclaration::parse_from_pair`: the (at most
one) warning appended when the trait name fails the upper-camel-case
convention. The raw pair text is checked (trimmed), the span is the lowered
identifier's own span. -/
def camelWarnList (E : Externals) (name_pair : Pair) (name : Ident) :
    List CompileWarning :=
  if E.is_upper_camel_case name_pair.text.trim then []
  else [⟨name.span, Warning.NonClassCaseTraitName name⟩]

/-- One iteration of the two-slot lookahead over the peekable child iterator
(`for _ in 0..2 { match trait_parts.peek() ... }`): a `trait_bounds` child is
consumed into the where-clause slot, a `type_params` child into the
type-params slot, anything else is left unconsumed. State:
(type-params slot, where-clause slot, remaining children). -/
def lookaheadStep :
    Option Pair × Option Pair × List Pair → Option Pair × Option Pair × List Pair
  | (tp, wc, rest) =>
    match rest with
    | [] => (tp, wc, [])
    | p :: rest2 =>
      match p.rule with
      | Rule.trait_bounds => (tp, some p, rest2)
      | Rule.type_params => (some p, wc, rest2)
      | _ => (tp, wc, p :: rest2)

/-- The full two-slot lookahead: the loop body runs exactly twice. -/
def lookahead2 (l : List Pair) : Option Pair × Option Pair × List Pair :=
  lookaheadStep (lookaheadStep (none, none, l))

/-- The children of the body node, if one remains after the lookahead
(`if let Some(methods_and_interface) = trait_parts.next()`); no remaining
child means an empty body. -/
def bodyChildrenOf : List Pair → List Pair
  | [] => []
  | b :: _ => b.children

/-- The loop over `methods_and_interface.into_inner()`: each `fn_signature`
child is lowered by `TraitFn::parse_from_pair` and pushed onto the interface
list, each `fn_decl` child is lowered by the external function-declaration
lowerer and pushed onto the methods list; in both cases the sub-result's
diagnostics are merged first and a valueless sub-result makes the item be
skipped (`continue`). Any other tag hits the `unreachable!` arm. -/
def parseTraitMethods (E : Externals) (config : Option BuildConfig) :
    List Pair → List TraitFn → List FunctionDeclaration →
    List CompileWarning → List CompileError →
    Except Panic
      (List TraitFn × List FunctionDeclaration × List CompileWarning × List CompileError)
  | [], interface, methods, w, e => .ok (interface, methods, w, e)
  | p :: rest, interface, methods, w, e =>
    match p.rule with
    | Rule.fn_signature =>
      match TraitFn.parse_from_pair E p config with
      | .error pan => .error pan
      | .ok r =>
        match r.value with
        | none =>
          parseTraitMethods E config rest interface methods (w ++ r.warnings) (e ++ r.errors)
        | some tf =>
          parseTraitMethods E config rest (interface ++ [tf]) methods
            (w ++ r.warnings) (e ++ r.errors)
    | Rule.fn_decl =>
      let r := E.fnDeclParse p config
      match r.value with
      | none =>
        parseTraitMethods E config rest interface methods (w ++ r.warnings) (e ++ r.errors)
      | some fd =>
        parseTraitMethods E config rest interface (methods ++ [fd])
          (w ++ r.warnings) (e ++ r.errors)
    | _ => .error Panic.unreachableTag

/-- `TraitDeclaration::parse_from_pair` from the declaration name onwards:
name lowering (failure returns `err` for the whole declaration), the
upper-camel-case lint, the two-slot lookahead, the body loop, and the final
type-parameter resolution whose failure falls back to the empty list. -/
def TraitDeclaration.parseTail (E : Externals) (config : Option BuildConfig)
    (visibility : Visibility) : List Pair → Except Panic (CompileResult TraitDeclaration)
  | [] => .error Panic.unwrapFailed
  | name_pair :: parts =>
    let nameRes := E.identParse name_pair config
    match nameRes.value with
    | none => .ok (err nameRes.warnings nameRes.errors)
    | some name =>
      let warnings := nameRes.warnings ++ camelWarnList E name_pair name
      let la := lookahead2 parts
      match parseTraitMethods E config (bodyChildrenOf la.2.2) [] [] warnings nameRes.errors with
      | .error pan => .error pan
      | .ok (interface, methods, warnings2, errors2) =>
        let tpRes := E.typeParamsParse la.1 la.2.1 config
        .ok (ok { name := name, interface_surface := interface, methods := methods,
                  type_parameters := tpRes.value.getD [],
                  visibility := visibility }
             (warnings2 ++ tpRes.warnings) (errors2 ++ tpRes.errors))

/-- `TraitDeclaration::parse_from_pair`: consume the first child as either a
visibility modifier (then the trait keyword) or the trait keyword itself,
defaulting visibility to `Private`, then proceed with the tail of the
declaration from its name. -/
def TraitDeclaration.parse_from_pair (E : Externals) (pair : Pair)
    (config : Option BuildConfig) : Except Panic (CompileResult TraitDeclaration) :=
  match pair.children with
  | [] => .error Panic.unwrapFailed
  | first :: rest0 =>
    if first.rule = Rule.visibility then
      match rest0 with
      | [] => .error Panic.unwrapFailed
      | _trait_keyword :: rest1 =>
        TraitDeclaration.parseTail E config (E.visibilityParse first) rest1
    else
      TraitDeclaration.parseTail E config Visibility.Private rest0

/-! Derived observations about one body item, used to state the claims. -/

/-- Whether lowering one body child completes without a panic: a
`fn_signature` child must not panic inside `TraitFn::parse_from_pair`, a
`fn_decl` child never panics (external call), any other tag hits
`unreachable!`. -/
def itemOk (E : Externals) (config : Option BuildConfig) (b : Pair) : Bool :=
  match b.rule with
  | Rule.fn_signature =>
    match TraitFn.parse_from_pair E b config with
    | .ok _ => true
    | .error _ => false
  | Rule.fn_decl => true
  | _ => false

/-- Whether lowering one body child produces a value (so the item is pushed
rather than skipped). -/
def itemSucceeds (E : Externals) (config : Option BuildConfig) (b : Pair) : Bool :=
  match b.rule with
  | Rule.fn_signature =>
    match TraitFn.parse_from_pair E b config with
    | .ok r => r.value.isSome
    | .error _ => false
  | Rule.fn_decl => (E.fnDeclParse b config).value.isSome
  | _ => false

/-- The warnings contributed by one body child's sub-lowering. -/
def itemWarnings (E : Externals) (config : Option BuildConfig) (b : Pair) :
    List CompileWarning :=
  match b.rule with
  | Rule.fn_signature =>
    match TraitFn.parse_from_pair E b config with
    | .ok r => r.warnings
    | .error _ => []
  | Rule.fn_decl => (E.fnDeclParse b config).warnings
  | _ => []

/-- The errors contributed by one body child's sub-lowering. -/
def itemErrors (E : Externals) (config : Option BuildConfig) (b : Pair) :
    List CompileError :=
  match b.rule with
  | Rule.fn_signature =>
    match TraitFn.parse_from_pair E b config with
    | .ok r => r.errors
    | .error _ => []
  | Rule.fn_decl => (E.fnDeclParse b config).errors
  | _ => []

/-- The `TraitFn` a body child contributes to the interface-surface list:
present exactly when the child is tagged `fn_signature` and its lowering
succeeds with a value. -/
def sigRoute (E : Externals) (config : Option BuildConfig) (b : Pair) :
    Option TraitFn :=
  if b.rule = Rule.fn_signature then
    match TraitFn.parse_from_pair E b config with
    | .ok r => r.value
    | .error _ => none
  else none

/-- The `FunctionDeclaration` a body child contributes to the methods list:
present exactly when the child is tagged `fn_decl` and its lowering succeeds
with a value. -/
def declRoute (E : Externals) (config : Option BuildConfig) (b : Pair) :
    Option FunctionDeclaration :=
  if b.rule = Rule.fn_decl then (E.fnDeclParse b config).value else none

/-- Ordered concatenation of the lists contributed by each element. -/
def concatMap {α β : Type} (f : α → List β) : List α → List β
  | [] => []
  | a :: l => f a ++ concatMap f l

theorem concatMap_nil {α β : Type} (f : α → List β) : concatMap f [] = [] := rfl

theorem concatMap_cons {α β : Type} (f : α → List β) (a : α) (l : List α) :
    concatMap f (a :: l) = f a ++ concatMap f l := rfl

theorem concatMap_append {α β : Type} (f : α → List β) (l₁ l₂ : List α) :
    concatMap f (l₁ ++ l₂) = concatMap f l₁ ++ concatMap f l₂ := by
  induction l₁ with
  | nil => simp [concatMap]
  | cons a l ih => simp [concatMap, ih]

/-- Observation: the value of a lowering outcome, `none` on a panic. -/
def lowVal {T : Type} : Except Panic (CompileResult T) → Option T
  | .ok r => r.value
  | .error _ => none

/-- Observation: the warnings of a lowering outcome, `[]` on a panic. -/
def lowWarns {T : Type} : Except Panic (CompileResult T) → List CompileWarning
  | .ok r => r.warnings
  | .error _ => []

/-- Observation: the errors of a lowering outcome, `[]` on a panic. -/
def lowErrs {T : Type} : Except Panic (CompileResult T) → List CompileError
  | .ok r => r.errors
  | .error _ => []

/-- Observation: whether a lowering outcome carries a present value. -/
def isPresent {T : Type} (x : Except Panic (CompileResult T)) : Bool :=
  (lowVal x).isSome

/-- Observation: whether an outcome returned at all (no panic). -/
def exOk {T : Type} : Except Panic T → Bool
  | .ok _ => true
  | .error _ => false

/-- Replace only the upper-camel-case predicate of an externals record. -/
def setCamel (E : Externals) (f : String → Bool) : Externals :=
  { E with is_upper_camel_case := f }

/-- Replace only the snake-case predicate of an externals record. -/
def setSnake (E : Externals) (f : String → Bool) : Externals :=
  { E with is_snake_case := f }

/-- The visibility recorded for a given header prefix (the children consumed
before the declaration name): `[v, kw]` means an explicit visibility child,
`[kw]` means none, so `Private`. -/
def headerVis (E : Externals) : List Pair → Visibility
  | [v, _] => E.visibilityParse v
  | _ => Visibility.Private

/-- Shape of the children consumed before the declaration name: either a
single non-visibility child (the trait keyword), or an explicit visibility
child followed by the keyword. -/
def headerShape (pre : List Pair) : Prop :=
  (∃ kw, pre = [kw] ∧ kw.rule ≠ Rule.visibility) ∨
  (∃ v kw, pre = [v, kw] ∧ v.rule = Rule.visibility)

/-- The type-lowering warnings contributed by the optional return-type part
of a signature's child list. -/
def tailTyWarns (E : Externals) (config : Option BuildConfig) :
    List Pair → List CompileWarning
  | _ :: b :: _ => (E.typeInfoParse b config).warnings
  | _ => []

/-! Concrete sample inputs: a small externals record and a handful of syntax
nodes, used to evaluate the lowerers on closed inputs. -/

/-- Sample externals: the identifier lowerer fails exactly on the text `BAD`,
the type lowerer fails exactly on `badty`, the function-declaration lowerer
fails exactly on `badfn`; the conventions accept exactly `Foo` / `bar`. -/
def sampleExternals : Externals where
  identParse := fun p _ =>
    if p.text = "BAD" then err [] [CompileError.other 0 ⟨p.srcSpan, none⟩]
    else ok ⟨p.text, ⟨p.srcSpan, none⟩⟩ [] []
  visibilityParse := fun p => if p.text = "pub" then Visibility.Public else Visibility.Private
  typeInfoParse := fun p _ =>
    if p.text = "badty" then err [] [CompileError.other 1 ⟨p.srcSpan, none⟩]
    else ok (TypeInfo.other 7) [] []
  paramListParse := fun _ _ => ok [] [] []
  fnDeclParse := fun p _ =>
    if p.text = "badfn" then err [] [CompileError.other 2 ⟨p.srcSpan, none⟩]
    else ok ⟨0⟩ [] []
  typeParamsParse := fun _ _ _ => ok [] [] []
  is_upper_camel_case := fun _ => true
  is_snake_case := fun s => s = "bar"

/-- Sample trait keyword node. -/
def kwPair : Pair := .mk (Rule.other 0) "trait" ⟨0, 5⟩ []

/-- Sample visibility node. -/
def visPair : Pair := .mk Rule.visibility "pub" ⟨0, 3⟩ []

/-- Sample trait name node (satisfies the sample camel-case convention). -/
def namePair : Pair := .mk (Rule.other 1) "Foo" ⟨6, 9⟩ []

/-- Sample trait name node whose identifier lowering fails. -/
def badNamePair : Pair := .mk (Rule.other 1) "BAD" ⟨6, 9⟩ []

/-- Sample trait name node that fails the sample camel-case convention. -/
def quxPair : Pair := .mk (Rule.other 1) "Qux" ⟨6, 9⟩ []

/-- Sample `fn` keyword node. -/
def fnKw : Pair := .mk (Rule.other 3) "fn" ⟨0, 2⟩ []

/-- Sample method name node (satisfies the sample snake-case convention). -/
def fnName : Pair := .mk (Rule.other 4) "bar" ⟨3, 6⟩ []

/-- Sample method name node whose identifier lowering fails. -/
def fnBadName : Pair := .mk (Rule.other 4) "BAD" ⟨3, 6⟩ []

/-- Sample method name node that fails the sample snake-case convention. -/
def fnFooName : Pair := .mk (Rule.other 4) "foo" ⟨3, 6⟩ []

/-- Sample parameter-list node. -/
def fnParams : Pair := .mk (Rule.other 5) "()" ⟨6, 8⟩ []

/-- Sample return-type marker node. -/
def arrowPair : Pair := .mk (Rule.other 7) "->" ⟨9, 11⟩ []

/-- Sample return-type node. -/
def tyPair : Pair := .mk (Rule.other 8) "bool" ⟨12, 16⟩ []

/-- Sample return-type node whose type lowering fails. -/
def badTyPair : Pair := .mk (Rule.other 8) "badty" ⟨12, 17⟩ []

/-- Sample well-formed interface signature without a return type. -/
def goodSig : Pair := .mk Rule.fn_signature "fn bar()" ⟨0, 8⟩ [fnKw, fnName, fnParams]

/-- Sample interface signature whose name lowering fails. -/
def badSig : Pair := .mk Rule.fn_signature "fn BAD()" ⟨0, 8⟩ [fnKw, fnBadName, fnParams]

/-- Sample interface signature with a badly-cased method name. -/
def fooSig : Pair := .mk Rule.fn_signature "fn foo()" ⟨0, 8⟩ [fnKw, fnFooName, fnParams]

/-- Sample interface signature with an explicit return type. -/
def sigWithTy : Pair :=
  .mk Rule.fn_signature "fn bar() -> bool" ⟨0, 16⟩ [fnKw, fnName, fnParams, arrowPair, tyPair]

/-- Sample interface signature whose explicit return type fails to lower. -/
def sigBadTy : Pair :=
  .mk Rule.fn_signature "fn bar() -> badty" ⟨0, 17⟩ [fnKw, fnName, fnParams, arrowPair, badTyPair]

/-- Sample default-method node. -/
def goodDecl : Pair := .mk Rule.fn_decl "fn baz() {}" ⟨10, 21⟩ []

/-- Sample body child with an unexpected tag. -/
def badTag : Pair := .mk (Rule.other 9) "zzz" ⟨0, 3⟩ []

/-- Sample body with one good signature, one failing signature and one good
default method. -/
def c1body : Pair := .mk (Rule.other 6) "" ⟨0, 30⟩ [goodSig, badSig, goodDecl]

/-- Sample declaration: keyword, name, body of three items. -/
def c1pair : Pair := .mk (Rule.other 2) "" ⟨0, 40⟩ [kwPair, namePair, c1body]

/-- Sample declaration whose own name fails to lower. -/
def c2pair : Pair := .mk (Rule.other 2) "" ⟨0, 40⟩ [kwPair, badNamePair]

/-- Sample declaration with a badly-cased trait name. -/
def c6pair : Pair := .mk (Rule.other 2) "" ⟨0, 40⟩ [kwPair, quxPair]

/-- Sample declaration without a visibility modifier. -/
def c9pair : Pair := .mk (Rule.other 2) "" ⟨0, 20⟩ [kwPair, namePair]

/-- Sample declaration with an explicit visibility modifier. -/
def c9vpair : Pair := .mk (Rule.other 2) "" ⟨0, 20⟩ [visPair, kwPair, namePair]

/-- Sample body holding only a bad-tagged child. -/
def badBody : Pair := .mk (Rule.other 6) "" ⟨0, 30⟩ [badTag]

/-- Sample declaration whose body holds a bad-tagged child. -/
def c10pair : Pair := .mk (Rule.other 2) "" ⟨0, 40⟩ [kwPair, namePair, badBody]

/-- Sample type-params node. -/
def tpPair : Pair := .mk Rule.type_params "<T>" ⟨9, 12⟩ []

/-- Sample where-clause node. -/
def wcPair : Pair := .mk Rule.trait_bounds "where T: Eq" ⟨13, 24⟩ []

/-- The identifier the sample externals produce for the sample trait name. -/
def fooIdent : Ident := ⟨"Foo", ⟨⟨6, 9⟩, none⟩⟩

/-- The identifier the sample externals produce for the failing-convention
trait name. -/
def quxIdent : Ident := ⟨"Qux", ⟨⟨6, 9⟩, none⟩⟩

/-- The identifier the sample externals produce for the sample method name. -/
def barIdent : Ident := ⟨"bar", ⟨⟨3, 6⟩, none⟩⟩

/-- The identifier the sample externals produce for the failing-convention
method name. -/
def fooFnIdent : Ident := ⟨"foo", ⟨⟨3, 6⟩, none⟩⟩

/-- The `TraitFn` the sample externals produce for `goodSig`. -/
def tfBar : TraitFn := ⟨barIdent, [], TypeInfo.Tuple [], ⟨⟨0, 8⟩, none⟩⟩

/-- The `TraitDeclaration` produced for the sample private declaration. -/
def c9td : TraitDeclaration := ⟨fooIdent, [], [], [], Visibility.Private⟩

/-- The `TraitDeclaration` produced for the sample public declaration. -/
def c9tdPub : TraitDeclaration := ⟨fooIdent, [], [], [], Visibility.Public⟩

/-! Core lemmas about the body loop and the declaration lowerer. -/

/-- The signature lowerer has no `unreachable!` arm: its only panic cause is a
failed `unwrap`. -/
theorem traitFn_no_unreachable (E : Externals) (p : Pair) (c : Option BuildConfig) :
    TraitFn.parse_from_pair E p c ≠ Except.error Panic.unreachableTag := by
  rcases hch : p.children with _ | ⟨kw, _ | ⟨np, sigRest⟩⟩
  · simp [TraitFn.parse_from_pair, hch]
  · simp [TraitFn.parse_from_pair, hch]
  · simp only [TraitFn.parse_from_pair, hch]
    cases hv : (E.identParse np c).value with
    | none => simp
    | some name =>
      rcases sigRest with _ | ⟨pp, afterParams⟩
      · simp
      · rcases afterParams with _ | ⟨sig, afterSignal⟩
        · simp
        · rcases afterSignal with _ | ⟨tp, rest⟩ <;> simp

/-- Complete characterisation of a non-panicking run of the body loop: the two
output lists extend the accumulators with the routed items in source order,
and the output diagnostics extend the accumulators with each sub-lowering's
diagnostics in source order. -/
theorem parseTraitMethods_ok_eq (E : Externals) (config : Option BuildConfig)
    (bs : List Pair) :
    ∀ i m w e i' m' w' e',
      parseTraitMethods E config bs i m w e = .ok (i', m', w', e') →
      i' = i ++ bs.filterMap (sigRoute E config) ∧
      m' = m ++ bs.filterMap (declRoute E config) ∧
      w' = w ++ concatMap (itemWarnings E config) bs ∧
      e' = e ++ concatMap (itemErrors E config) bs := by
  induction bs with
  | nil =>
    intro i m w e i' m' w' e' h
    simp only [parseTraitMethods, Except.ok.injEq, Prod.mk.injEq] at h
    obtain ⟨h1, h2, h3, h4⟩ := h
    simp [concatMap, h1, h2, h3, h4]
  | cons p rest ih =>
    intro i m w e i' m' w' e' h
    simp only [parseTraitMethods] at h
    cases hrule : p.rule with
    | fn_signature =>
      simp only [hrule] at h
      split at h
      next pan hfn => exact absurd h (by simp)
      next r hfn =>
        split at h
        next hval =>
          obtain ⟨h1, h2, h3, h4⟩ := ih _ _ _ _ _ _ _ _ h
          simp [h1, h2, h3, h4, sigRoute, declRoute, itemWarnings, itemErrors,
            hrule, hfn, hval, concatMap_cons, List.filterMap_cons]
        next tf hval =>
          obtain ⟨h1, h2, h3, h4⟩ := ih _ _ _ _ _ _ _ _ h
          simp [h1, h2, h3, h4, sigRoute, declRoute, itemWarnings, itemErrors,
            hrule, hfn, hval, concatMap_cons, List.filterMap_cons]
    | fn_decl =>
      simp only [hrule] at h
      split at h
      next hval =>
        obtain ⟨h1, h2, h3, h4⟩ := ih _ _ _ _ _ _ _ _ h
        simp [h1, h2, h3, h4, sigRoute, declRoute, itemWarnings, itemErrors,
          hrule, hval, concatMap_cons, List.filterMap_cons]
      next fd hval =>
        obtain ⟨h1, h2, h3, h4⟩ := ih _ _ _ _ _ _ _ _ h
        simp [h1, h2, h3, h4, sigRoute, declRoute, itemWarnings, itemErrors,
          hrule, hval, concatMap_cons, List.filterMap_cons]
    | visibility => simp only [hrule] at h; exact (Except.noConfusion h)
    | trait_bounds => simp only [hrule] at h; exact (Except.noConfusion h)
    | type_params => simp only [hrule] at h; exact (Except.noConfusion h)
    | other n => simp only [hrule] at h; exact (Except.noConfusion h)

/-- The body loop returns (rather than panics) exactly when every body child
is well-tagged and its signature lowering, if any, does not panic. -/
theorem parseTraitMethods_exOk (E : Externals) (config : Option BuildConfig)
    (bs : List Pair) : ∀ i m w e,
    exOk (parseTraitMethods E config bs i m w e) = bs.all (itemOk E config) := by
  induction bs with
  | nil => intro i m w e; rfl
  | cons p rest ih =>
    intro i m w e
    simp only [parseTraitMethods, List.all_cons]
    cases hrule : p.rule with
    | fn_signature =>
      cases hfn : TraitFn.parse_from_pair E p config with
      | error pan => simp [exOk, itemOk, hrule, hfn]
      | ok r =>
        cases hval : r.value <;> simp [itemOk, hrule, hfn, hval, ih]
    | fn_decl =>
      cases hval : (E.fnDeclParse p config).value <;> simp [itemOk, hrule, hval, ih]
    | visibility => simp [exOk, itemOk, hrule]
    | trait_bounds => simp [exOk, itemOk, hrule]
    | type_params => simp [exOk, itemOk, hrule]
    | other n => simp [exOk, itemOk, hrule]

/-- A body child with an unexpected tag, reached after well-behaved earlier
items, makes the body loop hit the `unreachable!` arm. -/
theorem parseTraitMethods_bad_tag (E : Externals) (config : Option BuildConfig)
    (pre : List Pair) (bad : Pair) (post : List Pair)
    (hpre : ∀ b ∈ pre, itemOk E config b = true)
    (h1 : bad.rule ≠ Rule.fn_signature) (h2 : bad.rule ≠ Rule.fn_decl) :
    ∀ i m w e, parseTraitMethods E config (pre ++ bad :: post) i m w e
      = .error Panic.unreachableTag := by
  induction pre with
  | nil =>
    intro i m w e
    cases hrule : bad.rule with
    | fn_signature => exact absurd hrule h1
    | fn_decl => exact absurd hrule h2
    | visibility => simp [parseTraitMethods, hrule]
    | trait_bounds => simp [parseTraitMethods, hrule]
    | type_params => simp [parseTraitMethods, hrule]
    | other n => simp [parseTraitMethods, hrule]
  | cons q pre' ih =>
    intro i m w e
    have hq := hpre q (by simp)
    have hrest : ∀ b ∈ pre', itemOk E config b = true := fun b hb => hpre b (by simp [hb])
    simp only [List.cons_append, parseTraitMethods]
    cases hrule : q.rule with
    | fn_signature =>
      cases hfn : TraitFn.parse_from_pair E q config with
      | error pan => exfalso; simp [itemOk, hrule, hfn] at hq
      | ok r =>
        cases hval : r.value with
        | none => simp only [hval]; exact ih hrest i m _ _
        | some tf => simp only [hval]; exact ih hrest (i ++ [tf]) m _ _
    | fn_decl =>
      cases hval : (E.fnDeclParse q config).value with
      | none => simp only [hval]; exact ih hrest i m _ _
      | some fd => simp only [hval]; exact ih hrest i (m ++ [fd]) _ _
    | visibility => exfalso; simp [itemOk, hrule] at hq
    | trait_bounds => exfalso; simp [itemOk, hrule] at hq
    | type_params => exfalso; simp [itemOk, hrule] at hq
    | other n => exfalso; simp [itemOk, hrule] at hq

/-- If every body child carries one of the two expected tags, the body loop
never hits the `unreachable!` arm, whatever else happens. -/
theorem parseTraitMethods_good_tags (E : Externals) (config : Option BuildConfig)
    (bs : List Pair)
    (hgood : ∀ b ∈ bs, b.rule = Rule.fn_signature ∨ b.rule = Rule.fn_decl) :
    ∀ i m w e, parseTraitMethods E config bs i m w e ≠ .error Panic.unreachableTag := by
  induction bs with
  | nil => intro i m w e h; exact Except.noConfusion h
  | cons q rest ih =>
    intro i m w e
    have hq := hgood q (by simp)
    have hrest : ∀ b ∈ rest, b.rule = Rule.fn_signature ∨ b.rule = Rule.fn_decl :=
      fun b hb => hgood b (by simp [hb])
    simp only [parseTraitMethods]
    rcases hq with hq | hq
    · cases hfn : TraitFn.parse_from_pair E q config with
      | error pan =>
        cases pan with
        | unwrapFailed => simp [hq, hfn]
        | unreachableTag => exact absurd hfn (traitFn_no_unreachable E q config)
      | ok r =>
        cases hval : r.value with
        | none => simp only [hq, hfn, hval]; exact ih hrest _ _ _ _
        | some tf => simp only [hq, hfn, hval]; exact ih hrest _ _ _ _
    · cases hval : (E.fnDeclParse q config).value with
      | none => simp only [hq, hval]; exact ih hrest _ _ _ _
      | some fd => simp only [hq, hval]; exact ih hrest _ _ _ _

/-- Counting: the interface and methods lists together hold exactly the body
children whose lowering succeeds with a value. -/
theorem route_count (E : Externals) (config : Option BuildConfig) (bs : List Pair) :
    (bs.filterMap (sigRoute E config)).length + (bs.filterMap (declRoute E config)).length
      = (bs.filter (itemSucceeds E config)).length := by
  induction bs with
  | nil => rfl
  | cons p rest ih =>
    cases hrule : p.rule with
    | fn_signature =>
      cases hfn : TraitFn.parse_from_pair E p config with
      | error pan =>
        simp [List.filterMap_cons, List.filter_cons, sigRoute, declRoute, itemSucceeds,
          hrule, hfn, ih]
      | ok r =>
        cases hval : r.value with
        | none =>
          simp [List.filterMap_cons, List.filter_cons, sigRoute, declRoute, itemSucceeds,
            hrule, hfn, hval, ih]
        | some tf =>
          simp [List.filterMap_cons, List.filter_cons, sigRoute, declRoute, itemSucceeds,
            hrule, hfn, hval, ih]
          omega
    | fn_decl =>
      cases hval : (E.fnDeclParse p config).value with
      | none =>
        simp [List.filterMap_cons, List.filter_cons, sigRoute, declRoute, itemSucceeds,
          hrule, hval, ih]
      | some fd =>
        simp [List.filterMap_cons, List.filter_cons, sigRoute, declRoute, itemSucceeds,
          hrule, hval, ih]
        omega
    | visibility =>
      simp [List.filterMap_cons, List.filter_cons, sigRoute, declRoute, itemSucceeds, hrule, ih]
    | trait_bounds =>
      simp [List.filterMap_cons, List.filter_cons, sigRoute, declRoute, itemSucceeds, hrule, ih]
    | type_params =>
      simp [List.filterMap_cons, List.filter_cons, sigRoute, declRoute, itemSucceeds, hrule, ih]
    | other n =>
      simp [List.filterMap_cons, List.filter_cons, sigRoute, declRoute, itemSucceeds, hrule, ih]

/-- A failed name lowering makes the tail of the declaration return `err` with
exactly the name lowering's diagnostics. -/
theorem parseTail_name_fail (E : Externals) (config : Option BuildConfig)
    (v : Visibility) (np : Pair) (parts : List Pair)
    (h : (E.identParse np config).value = none) :
    TraitDeclaration.parseTail E config v (np :: parts)
      = .ok (err (E.identParse np config).warnings (E.identParse np config).errors) := by
  simp [TraitDeclaration.parseTail, h]

/-- Characterisation of the tail of the declaration once the name lowering
succeeded and the body loop returned. -/
theorem parseTail_ok_char (E : Externals) (config : Option BuildConfig)
    (v : Visibility) (np : Pair) (parts : List Pair) (name : Ident)
    (i : List TraitFn) (m : List FunctionDeclaration)
    (w2 : List CompileWarning) (e2 : List CompileError)
    (hname : (E.identParse np config).value = some name)
    (hbody : parseTraitMethods E config (bodyChildrenOf (lookahead2 parts).2.2) [] []
        ((E.identParse np config).warnings ++ camelWarnList E np name)
        (E.identParse np config).errors = .ok (i, m, w2, e2)) :
    TraitDeclaration.parseTail E config v (np :: parts)
      = .ok (ok { name := name, interface_surface := i, methods := m,
                  type_parameters := (E.typeParamsParse (lookahead2 parts).1
                    (lookahead2 parts).2.1 config).value.getD [],
                  visibility := v }
             (w2 ++ (E.typeParamsParse (lookahead2 parts).1 (lookahead2 parts).2.1 config).warnings)
             (e2 ++ (E.typeParamsParse (lookahead2 parts).1 (lookahead2 parts).2.1 config).errors)) := by
  simp [TraitDeclaration.parseTail, hname, hbody]

/-- A panic in the body loop propagates out of the declaration's tail. -/
theorem parseTail_panic_char (E : Externals) (config : Option BuildConfig)
    (v : Visibility) (np : Pair) (parts : List Pair) (name : Ident) (pan : Panic)
    (hname : (E.identParse np config).value = some name)
    (hbody : parseTraitMethods E config (bodyChildrenOf (lookahead2 parts).2.2) [] []
        ((E.identParse np config).warnings ++ camelWarnList E np name)
        (E.identParse np config).errors = .error pan) :
    TraitDeclaration.parseTail E config v (np :: parts) = .error pan := by
  simp [TraitDeclaration.parseTail, hname, hbody]

/-- Consuming the header: for a well-shaped prefix (keyword alone, or an
explicit visibility child plus the keyword), the declaration lowerer hands the
rest of the children to the tail with the recorded visibility. -/
theorem parse_from_pair_reduce (E : Externals) (pair : Pair)
    (config : Option BuildConfig) (pre : List Pair) (np : Pair) (parts : List Pair)
    (hshape : pair.children = pre ++ np :: parts) (hpre : headerShape pre) :
    TraitDeclaration.parse_from_pair E pair config
      = TraitDeclaration.parseTail E config (headerVis E pre) (np :: parts) := by
  rcases hpre with ⟨kw, hkw, hnv⟩ | ⟨v, kw, hvkw, hv⟩
  · subst hkw
    simp [TraitDeclaration.parse_from_pair, hshape, hnv, headerVis]
  · subst hvkw
    simp [TraitDeclaration.parse_from_pair, hshape, hv, headerVis]

/-- The visibility stored in a produced `TraitDeclaration` is exactly the one
the tail was given. -/
theorem parseTail_vis (E : Externals) (config : Option BuildConfig) (v : Visibility)
    (l : List Pair) (r : CompileResult TraitDeclaration) (td : TraitDeclaration)
    (hok : TraitDeclaration.parseTail E config v l = .ok r)
    (hval : r.value = some td) : td.visibility = v := by
  cases l with
  | nil => exact Except.noConfusion hok
  | cons np parts =>
    cases hname : (E.identParse np config).value with
    | none =>
      rw [parseTail_name_fail E config v np parts hname] at hok
      cases hok
      simp [err] at hval
    | some name =>
      cases hbody : parseTraitMethods E config (bodyChildrenOf (lookahead2 parts).2.2) [] []
          ((E.identParse np config).warnings ++ camelWarnList E np name)
          (E.identParse np config).errors with
      | error pan =>
        rw [parseTail_panic_char E config v np parts name pan hname hbody] at hok
        exact Except.noConfusion hok
      | ok out =>
        obtain ⟨i, m, w2, e2⟩ := out
        rw [parseTail_ok_char E config v np parts name i m w2 e2 hname hbody] at hok
        cases hok
        simp only [ok, Option.some.injEq] at hval
        subst hval
        rfl

/-- No body child can be routed to both lists: the two grammar tags are
mutually exclusive. -/
theorem route_disjoint (E : Externals) (config : Option BuildConfig) (b : Pair) :
    ¬((sigRoute E config b).isSome ∧ (declRoute E config b).isSome) := by
  cases h : b.rule with
  | fn_signature => simp [sigRoute, declRoute, h]
  | fn_decl => simp [sigRoute, declRoute, h]
  | visibility => simp [sigRoute, declRoute, h]
  | trait_bounds => simp [sigRoute, declRoute, h]
  | type_params => simp [sigRoute, declRoute, h]
  | other n => simp [sigRoute, declRoute, h]

/-- A body child whose lowering succeeds is routed to one of the two lists. -/
theorem route_total (E : Externals) (config : Option BuildConfig) (b : Pair)
    (hs : itemSucceeds E config b = true) :
    (sigRoute E config b).isSome ∨ (declRoute E config b).isSome := by
  cases h : b.rule with
  | fn_signature =>
    left
    cases hfn : TraitFn.parse_from_pair E b config with
    | error pan => exfalso; simp [itemSucceeds, h, hfn] at hs
    | ok r =>
      simp only [itemSucceeds, h, hfn] at hs
      simp [sigRoute, h, hfn, hs]
  | fn_decl =>
    right
    simp only [itemSucceeds, h] at hs
    simp [declRoute, h, hs]
  | visibility => exfalso; simp [itemSucceeds, h] at hs
  | trait_bounds => exfalso; simp [itemSucceeds, h] at hs
  | type_params => exfalso; simp [itemSucceeds, h] at hs
  | other n => exfalso; simp [itemSucceeds, h] at hs

/-- A body child whose lowering succeeds in particular does not panic. -/
theorem itemSucceeds_imp_itemOk (E : Externals) (config : Option BuildConfig)
    (b : Pair) (h : itemSucceeds E config b = true) : itemOk E config b = true := by
  cases hr : b.rule with
  | fn_signature =>
    cases hfn : TraitFn.parse_from_pair E b config with
    | error pan => exfalso; simp [itemSucceeds, hr, hfn] at h
    | ok r => simp [itemOk, hr, hfn]
  | fn_decl => simp [itemOk, hr]
  | visibility => exfalso; simp [itemSucceeds, hr] at h
  | trait_bounds => exfalso; simp [itemSucceeds, hr] at h
  | type_params => exfalso; simp [itemSucceeds, hr] at h
  | other n => exfalso; simp [itemSucceeds, hr] at h

/-- One lookahead iteration on an empty remainder does nothing. -/
theorem lookaheadStep_nil (tp wc : Option Pair) :
    lookaheadStep (tp, wc, []) = (tp, wc, []) := rfl

/-- One lookahead iteration consumes a `trait_bounds` child into the
where-clause slot. -/
theorem lookaheadStep_tb (tp wc : Option Pair) (p : Pair) (t : List Pair)
    (h : p.rule = Rule.trait_bounds) :
    lookaheadStep (tp, wc, p :: t) = (tp, some p, t) := by
  simp [lookaheadStep, h]

/-- One lookahead iteration consumes a `type_params` child into the
type-params slot. -/
theorem lookaheadStep_tp (tp wc : Option Pair) (p : Pair) (t : List Pair)
    (h : p.rule = Rule.type_params) :
    lookaheadStep (tp, wc, p :: t) = (some p, wc, t) := by
  simp [lookaheadStep, h]

/-- One lookahead iteration leaves any other child unconsumed. -/
theorem lookaheadStep_skip (tp wc : Option Pair) (p : Pair) (t : List Pair)
    (h1 : p.rule ≠ Rule.trait_bounds) (h2 : p.rule ≠ Rule.type_params) :
    lookaheadStep (tp, wc, p :: t) = (tp, wc, p :: t) := by
  cases hr : p.rule with
  | trait_bounds => exact absurd hr h1
  | type_params => exact absurd hr h2
  | visibility => simp [lookaheadStep, hr]
  | fn_signature => simp [lookaheadStep, hr]
  | fn_decl => simp [lookaheadStep, hr]
  | other n => simp [lookaheadStep, hr]

/-- C3: for the body loop — the site where the declaration lowerer invokes
the signature and function sub-lowerings — the diagnostics after a
non-panicking run equal the caller's prior diagnostics followed by each
sub-lowering's diagnostics in source order, warnings and errors alike;
nothing is dropped or duplicated. -/
theorem C3_diagnostic_concatenation
    (E : Externals) (config : Option BuildConfig) (bs : List Pair)
    (i : List TraitFn) (m : List FunctionDeclaration)
    (w : List CompileWarning) (e : List CompileError)
    (i' : List TraitFn) (m' : List FunctionDeclaration)
    (w' : List CompileWarning) (e' : List CompileError)
    (h : parseTraitMethods E config bs i m w e = .ok (i', m', w', e')) :
    w' = w ++ concatMap (itemWarnings E config) bs ∧
    e' = e ++ concatMap (itemErrors E config) bs := by
  obtain ⟨_, _, h3, h4⟩ := parseTraitMethods_ok_eq E config bs i m w e i' m' w' e' h
  exact ⟨h3, h4⟩

/-- C4: every body child is routed by its grammar tag — `fn_signature`
children (when their lowering succeeds) into the interface-surface list,
`fn_decl` children into the methods list — never both, never neither when
the lowering succeeds, and each list preserves the body's source order. -/
theorem C4_partition (E : Externals) (config : Option BuildConfig) (bs : List Pair)
    (w : List CompileWarning) (e : List CompileError)
    (i : List TraitFn) (m : List FunctionDeclaration)
    (w' : List CompileWarning) (e' : List CompileError)
    (h : parseTraitMethods E config bs [] [] w e = .ok (i, m, w', e')) :
    i = bs.filterMap (sigRoute E config) ∧
    m = bs.filterMap (declRoute E config) ∧
    (∀ b ∈ bs, ¬((sigRoute E config b).isSome ∧ (declRoute E config b).isSome)) ∧
    (∀ b ∈ bs, itemSucceeds E config b = true →
      (sigRoute E config b).isSome ∨ (declRoute E config b).isSome) := by
  obtain ⟨h1, h2, _, _⟩ := parseTraitMethods_ok_eq E config bs [] [] w e i m w' e' h
  refine ⟨by simpa using h1, by simpa using h2, ?_, ?_⟩
  · intro b _
    exact route_disjoint E config b
  · intro b _ hs
    exact route_total E config b hs

/-- C5: a signature without a return-type marker (exactly keyword, name and
parameter list as children) lowers with the empty-tuple return type, and the
return-type span is the whole signature node's range; a signature with a
marker takes its return-type span from the explicit type node following the
marker. -/
theorem C5_return_type_attribution :
    (∀ (E : Externals) (pair : Pair) (config : Option BuildConfig)
       (kw np pp : Pair) (name : Ident),
       pair.children = [kw, np, pp] →
       (E.identParse np config).value = some name →
       (lowVal (TraitFn.parse_from_pair E pair config)).map TraitFn.return_type
           = some (TypeInfo.Tuple []) ∧
       (lowVal (TraitFn.parse_from_pair E pair config)).map TraitFn.return_type_span
           = some ⟨pair.srcSpan, config.map BuildConfig.path⟩) ∧
    (∀ (E : Externals) (pair : Pair) (config : Option BuildConfig)
       (kw np pp marker ty : Pair) (tailPairs : List Pair) (name : Ident),
       pair.children = kw :: np :: pp :: marker :: ty :: tailPairs →
       (E.identParse np config).value = some name →
       (lowVal (TraitFn.parse_from_pair E pair config)).map TraitFn.return_type_span
           = some ⟨ty.srcSpan, config.map BuildConfig.path⟩) := by
  constructor
  · intro E pair config kw np pp name hch hname
    simp [TraitFn.parse_from_pair, hch, hname, lowVal, ok]
  · intro E pair config kw np pp marker ty tailPairs name hch hname
    simp [TraitFn.parse_from_pair, hch, hname, lowVal, ok]

/-- C7: the two-slot lookahead after the declaration name captures the
type-params node and/or the where-clause node in either relative order, or
neither; a non-matching child is left unconsumed for the body step. -/
theorem C7_two_slot_lookahead :
    (lookahead2 [] = (none, none, [])) ∧
    (∀ (hd : Pair) (t : List Pair),
       hd.rule ≠ Rule.trait_bounds → hd.rule ≠ Rule.type_params →
       lookahead2 (hd :: t) = (none, none, hd :: t)) ∧
    (∀ (a b : Pair) (t : List Pair),
       a.rule = Rule.type_params → b.rule = Rule.trait_bounds →
       lookahead2 (a :: b :: t) = (some a, some b, t)) ∧
    (∀ (a b : Pair) (t : List Pair),
       a.rule = Rule.trait_bounds → b.rule = Rule.type_params →
       lookahead2 (a :: b :: t) = (some b, some a, t)) ∧
    (∀ (a : Pair), a.rule = Rule.type_params → lookahead2 [a] = (some a, none, [])) ∧
    (∀ (a hd : Pair) (t : List Pair), a.rule = Rule.type_params →
       hd.rule ≠ Rule.trait_bounds → hd.rule ≠ Rule.type_params →
       lookahead2 (a :: hd :: t) = (some a, none, hd :: t)) ∧
    (∀ (a : Pair), a.rule = Rule.trait_bounds → lookahead2 [a] = (none, some a, [])) ∧
    (∀ (a hd : Pair) (t : List Pair), a.rule = Rule.trait_bounds →
       hd.rule ≠ Rule.trait_bounds → hd.rule ≠ Rule.type_params →
       lookahead2 (a :: hd :: t) = (none, some a, hd :: t)) := by
  refine ⟨rfl, ?_, ?_, ?_, ?_, ?_, ?_, ?_⟩
  · intro hd t h1 h2
    rw [lookahead2, lookaheadStep_skip _ _ _ _ h1 h2, lookaheadStep_skip _ _ _ _ h1 h2]
  · intro a b t ha hb
    rw [lookahead2, lookaheadStep_tp _ _ _ _ ha, lookaheadStep_tb _ _ _ _ hb]
  · intro a b t ha hb
    rw [lookahead2, lookaheadStep_tb _ _ _ _ ha, lookaheadStep_tp _ _ _ _ hb]
  · intro a ha
    rw [lookahead2, lookaheadStep_tp _ _ _ _ ha, lookaheadStep_nil]
  · intro a hd t ha h1 h2
    rw [lookahead2, lookaheadStep_tp _ _ _ _ ha, lookaheadStep_skip _ _ _ _ h1 h2]
  · intro a ha
    rw [lookahead2, lookaheadStep_tb _ _ _ _ ha, lookaheadStep_nil]
  · intro a hd t ha h1 h2
    rw [lookahead2, lookaheadStep_tb _ _ _ _ ha, lookaheadStep_skip _ _ _ _ h1 h2]

/-- C8: when a return-type marker is present but the explicit type node fails
to lower, the signature still lowers to a present `TraitFn` whose return type
is the `ErrorRecovery` placeholder, with the failure's diagnostics
accumulated after the earlier steps' diagnostics. -/
theorem C8_error_recovery_return_type
    (E : Externals) (pair : Pair) (config : Option BuildConfig)
    (kw np pp marker ty : Pair) (tailPairs : List Pair) (name : Ident)
    (hch : pair.children = kw :: np :: pp :: marker :: ty :: tailPairs)
    (hname : (E.identParse np config).value = some name)
    (hty : (E.typeInfoParse ty config).value = none) :
    isPresent (TraitFn.parse_from_pair E pair config) = true ∧
    (lowVal (TraitFn.parse_from_pair E pair config)).map TraitFn.return_type
        = some TypeInfo.ErrorRecovery ∧
    lowErrs (TraitFn.parse_from_pair E pair config)
        = (E.identParse np config).errors ++ (E.paramListParse pp.children config).errors
          ++ (E.typeInfoParse ty config).errors := by
  refine ⟨?_, ?_, ?_⟩ <;>
    simp [TraitFn.parse_from_pair, hch, hname, hty, lowVal, lowErrs, isPresent, ok]

/-- C9: a trait-like declaration whose first child is not a visibility
modifier lowers with visibility `Private`; when the first child is a
visibility modifier, it is consumed and the recorded visibility is the one
the external visibility lowerer assigns to it. -/
theorem C9_visibility_default :
    (∀ (E : Externals) (pair : Pair) (config : Option BuildConfig)
       (first : Pair) (rest : List Pair)
       (r : CompileResult TraitDeclaration) (td : TraitDeclaration),
       pair.children = first :: rest →
       first.rule ≠ Rule.visibility →
       TraitDeclaration.parse_from_pair E pair config = .ok r →
       r.value = some td →
       td.visibility = Visibility.Private) ∧
    (∀ (E : Externals) (pair : Pair) (config : Option BuildConfig)
       (first : Pair) (rest : List Pair)
       (r : CompileResult TraitDeclaration) (td : TraitDeclaration),
       pair.children = first :: rest →
       first.rule = Rule.visibility →
       TraitDeclaration.parse_from_pair E pair config = .ok r →
       r.value = some td →
       td.visibility = E.visibilityParse first) := by
  constructor
  · intro E pair config first rest r td hch hnv hok hval
    have hred : TraitDeclaration.parse_from_pair E pair config
        = TraitDeclaration.parseTail E config Visibility.Private rest := by
      simp [TraitDeclaration.parse_from_pair, hch, hnv]
    rw [hred] at hok
    exact parseTail_vis E config _ rest r td hok hval
  · intro E pair config first rest r td hch hv hok hval
    cases rest with
    | nil =>
      have hpanic : TraitDeclaration.parse_from_pair E pair config
          = .error Panic.unwrapFailed := by
        simp [TraitDeclaration.parse_from_pair, hch, hv]
      rw [hpanic] at hok
      exact Except.noConfusion hok
    | cons kw rest1 =>
      have hred : TraitDeclaration.parse_from_pair E pair config
          = TraitDeclaration.parseTail E config (E.visibilityParse first) rest1 := by
        simp [TraitDeclaration.parse_from_pair, hch, hv]
      rw [hred] at hok
      exact parseTail_vis E config _ rest1 r td hok hval

/-- C2: under a well-formed header, when the declaration lowerer returns at
all (no panic), it returns an absent value exactly when lowering the
declaration's own name failed; every other failure — body items,
type-parameter resolution — shows up only as accumulated diagnostics. -/
theorem C2_err_iff_name_fails
    (E : Externals) (pair : Pair) (config : Option BuildConfig)
    (pre : List Pair) (np : Pair) (parts : List Pair)
    (hshape : pair.children = pre ++ np :: parts) (hpre : headerShape pre)
    (hnp : exOk (TraitDeclaration.parse_from_pair E pair config) = true) :
    isPresent (TraitDeclaration.parse_from_pair E pair config) = false ↔
      (E.identParse np config).value = none := by
  rw [parse_from_pair_reduce E pair config pre np parts hshape hpre] at hnp ⊢
  cases hname : (E.identParse np config).value with
  | none =>
    rw [parseTail_name_fail E config _ np parts hname]
    simp [isPresent, lowVal, err]
  | some name =>
    cases hbody : parseTraitMethods E config (bodyChildrenOf (lookahead2 parts).2.2) [] []
        ((E.identParse np config).warnings ++ camelWarnList E np name)
        (E.identParse np config).errors with
    | error pan =>
      rw [parseTail_panic_char E config _ np parts name pan hname hbody] at hnp
      exact absurd hnp (by simp [exOk])
    | ok out =>
      obtain ⟨i, m, w2, e2⟩ := out
      rw [parseTail_ok_char E config _ np parts name i m w2 e2 hname hbody]
      simp [isPresent, lowVal, ok]

/-- C1: if the resolved body contains exactly one failing item (well-tagged,
non-panicking, but valueless, and carrying at least one error of its own)
among otherwise succeeding items, the declaration still lowers to a present
value, the interface-surface and methods lists together hold one item fewer
than the body, and the aggregated errors are non-empty. -/
theorem C1_skip_on_failure
    (E : Externals) (pair : Pair) (config : Option BuildConfig)
    (pre : List Pair) (np : Pair) (parts : List Pair) (name : Ident)
    (pre2 post : List Pair) (bad : Pair)
    (hshape : pair.children = pre ++ np :: parts) (hpre : headerShape pre)
    (hname : (E.identParse np config).value = some name)
    (hbs : bodyChildrenOf (lookahead2 parts).2.2 = pre2 ++ bad :: post)
    (hpre2 : ∀ b ∈ pre2, itemSucceeds E config b = true)
    (hpost : ∀ b ∈ post, itemSucceeds E config b = true)
    (hbadOk : itemOk E config bad = true)
    (hbadFail : itemSucceeds E config bad = false)
    (hbadErr : itemErrors E config bad ≠ []) :
    isPresent (TraitDeclaration.parse_from_pair E pair config) = true ∧
    (lowVal (TraitDeclaration.parse_from_pair E pair config)).map
        (fun td => td.interface_surface.length + td.methods.length + 1)
      = some (bodyChildrenOf (lookahead2 parts).2.2).length ∧
    lowErrs (TraitDeclaration.parse_from_pair E pair config) ≠ [] := by
  rw [parse_from_pair_reduce E pair config pre np parts hshape hpre]
  have hallOk : (bodyChildrenOf (lookahead2 parts).2.2).all (itemOk E config) = true := by
    rw [hbs, List.all_append, List.all_cons]
    have ha : pre2.all (itemOk E config) = true :=
      List.all_eq_true.mpr fun b hb => itemSucceeds_imp_itemOk E config b (hpre2 b hb)
    have hc : post.all (itemOk E config) = true :=
      List.all_eq_true.mpr fun b hb => itemSucceeds_imp_itemOk E config b (hpost b hb)
    simp [ha, hc, hbadOk]
  cases hbody : parseTraitMethods E config (bodyChildrenOf (lookahead2 parts).2.2) [] []
      ((E.identParse np config).warnings ++ camelWarnList E np name)
      (E.identParse np config).errors with
  | error pan =>
    exfalso
    have hx2 := parseTraitMethods_exOk E config (bodyChildrenOf (lookahead2 parts).2.2)
      [] [] ((E.identParse np config).warnings ++ camelWarnList E np name)
      (E.identParse np config).errors
    rw [hbody, hallOk] at hx2
    simp [exOk] at hx2
  | ok out =>
    obtain ⟨i, m, w2, e2⟩ := out
    rw [parseTail_ok_char E config _ np parts name i m w2 e2 hname hbody]
    obtain ⟨h1, h2, _, h4⟩ := parseTraitMethods_ok_eq E config
      (bodyChildrenOf (lookahead2 parts).2.2) [] [] _ _ i m w2 e2 hbody
    refine ⟨by simp [isPresent, lowVal, ok], ?_, ?_⟩
    · simp only [lowVal, ok, Option.map_some', Option.some.injEq]
      have hlen : i.length + m.length
          = ((bodyChildrenOf (lookahead2 parts).2.2).filter (itemSucceeds E config)).length := by
        rw [h1, h2]
        simpa using route_count E config (bodyChildrenOf (lookahead2 parts).2.2)
      have hfl : (bodyChildrenOf (lookahead2 parts).2.2).filter (itemSucceeds E config)
          = pre2 ++ post := by
        rw [hbs, List.filter_append, List.filter_cons, hbadFail]
        simp only [Bool.false_eq_true, if_false]
        rw [List.filter_eq_self.mpr hpre2, List.filter_eq_self.mpr hpost]
      have hfl' : ((bodyChildrenOf (lookahead2 parts).2.2).filter
          (itemSucceeds E config)).length = pre2.length + post.length := by
        rw [hfl, List.length_append]
      have hblen : (bodyChildrenOf (lookahead2 parts).2.2).length
          = pre2.length + 1 + post.length := by
        rw [hbs]; simp [List.length_append]; omega
      omega
    · simp only [lowErrs, ok]
      intro hcontra
      rw [h4, hbs, concatMap_append, concatMap_cons] at hcontra
      simp only [List.append_eq_nil] at hcontra
      tauto

/-- C10: a body child tagged with neither expected grammar tag drives the
declaration lowerer into the `unreachable!` panic (rather than an `err`
result), while under the precondition that every body child carries one of
the two expected tags the `unreachable!` branch is never reached. -/
theorem C10_unreachable_tag :
    (∀ (E : Externals) (pair : Pair) (config : Option BuildConfig)
       (pre : List Pair) (np : Pair) (parts : List Pair) (name : Ident)
       (pre2 post : List Pair) (bad : Pair),
       pair.children = pre ++ np :: parts → headerShape pre →
       (E.identParse np config).value = some name →
       bodyChildrenOf (lookahead2 parts).2.2 = pre2 ++ bad :: post →
       (∀ b ∈ pre2, itemOk E config b = true) →
       bad.rule ≠ Rule.fn_signature → bad.rule ≠ Rule.fn_decl →
       TraitDeclaration.parse_from_pair E pair config
         = .error Panic.unreachableTag) ∧
    (∀ (E : Externals) (pair : Pair) (config : Option BuildConfig)
       (pre : List Pair) (np : Pair) (parts : List Pair),
       pair.children = pre ++ np :: parts → headerShape pre →
       (∀ b ∈ bodyChildrenOf (lookahead2 parts).2.2,
         b.rule = Rule.fn_signature ∨ b.rule = Rule.fn_decl) →
       TraitDeclaration.parse_from_pair E pair config
         ≠ .error Panic.unreachableTag) := by
  constructor
  · intro E pair config pre np parts name pre2 post bad hshape hpre hname hbs hpre2 hb1 hb2
    rw [parse_from_pair_reduce E pair config pre np parts hshape hpre]
    have hbody : parseTraitMethods E config (bodyChildrenOf (lookahead2 parts).2.2) [] []
        ((E.identParse np config).warnings ++ camelWarnList E np name)
        (E.identParse np config).errors = .error Panic.unreachableTag := by
      rw [hbs]
      exact parseTraitMethods_bad_tag E config pre2 bad post hpre2 hb1 hb2 _ _ _ _
    exact parseTail_panic_char E config _ np parts name _ hname hbody
  · intro E pair config pre np parts hshape hpre hgood
    rw [parse_from_pair_reduce E pair config pre np parts hshape hpre]
    cases hname : (E.identParse np config).value with
    | none =>
      rw [parseTail_name_fail E config _ np parts hname]
      exact fun h => Except.noConfusion h
    | some name =>
      cases hbody : parseTraitMethods E config (bodyChildrenOf (lookahead2 parts).2.2) [] []
          ((E.identParse np config).warnings ++ camelWarnList E np name)
          (E.identParse np config).errors with
      | ok out =>
        obtain ⟨i, m, w2, e2⟩ := out
        rw [parseTail_ok_char E config _ np parts name i m w2 e2 hname hbody]
        exact fun h => Except.noConfusion h
      | error pan =>
        rw [parseTail_panic_char E config _ np parts name pan hname hbody]
        intro h
        injection h with hpan
        subst hpan
        exact absurd hbody (parseTraitMethods_good_tags E config _ hgood _ _ _ _)

/-- The signature lowerer never consults the upper-camel-case predicate. -/
theorem traitFn_setCamel (E : Externals) (f : String → Bool) (p : Pair)
    (c : Option BuildConfig) :
    TraitFn.parse_from_pair (setCamel E f) p c = TraitFn.parse_from_pair E p c := rfl

/-- Projection facts: replacing the upper-camel-case predicate leaves every
other collaborator unchanged. -/
theorem setCamel_fnDeclParse (E : Externals) (f : String → Bool) :
    (setCamel E f).fnDeclParse = E.fnDeclParse := rfl

theorem setCamel_identParse (E : Externals) (f : String → Bool) :
    (setCamel E f).identParse = E.identParse := rfl

theorem setCamel_typeParamsParse (E : Externals) (f : String → Bool) :
    (setCamel E f).typeParamsParse = E.typeParamsParse := rfl

theorem setCamel_camel (E : Externals) (f : String → Bool) :
    (setCamel E f).is_upper_camel_case = f := rfl

/-- Projection facts: replacing the snake-case predicate leaves every other
collaborator unchanged. -/
theorem setSnake_identParse (E : Externals) (f : String → Bool) :
    (setSnake E f).identParse = E.identParse := rfl

theorem setSnake_paramListParse (E : Externals) (f : String → Bool) :
    (setSnake E f).paramListParse = E.paramListParse := rfl

theorem setSnake_typeInfoParse (E : Externals) (f : String → Bool) :
    (setSnake E f).typeInfoParse = E.typeInfoParse := rfl

theorem setSnake_snake (E : Externals) (f : String → Bool) :
    (setSnake E f).is_snake_case = f := rfl

/-- The body loop never consults the upper-camel-case predicate. -/
theorem parseTraitMethods_setCamel (E : Externals) (f : String → Bool)
    (config : Option BuildConfig) (bs : List Pair) : ∀ i m w e,
    parseTraitMethods (setCamel E f) config bs i m w e
      = parseTraitMethods E config bs i m w e := by
  induction bs with
  | nil => intro i m w e; rfl
  | cons p rest ih =>
    intro i m w e
    simp only [parseTraitMethods, traitFn_setCamel, setCamel_fnDeclParse]
    cases hrule : p.rule with
    | fn_signature =>
      cases hfn : TraitFn.parse_from_pair E p config with
      | error pan => simp [hfn]
      | ok r => cases hval : r.value <;> simp [hfn, hval, ih]
    | fn_decl => cases hval : (E.fnDeclParse p config).value <;> simp [hval, ih]
    | visibility => simp
    | trait_bounds => simp
    | type_params => simp
    | other n => simp

/-- Per-item warnings do not depend on the upper-camel-case predicate. -/
theorem itemWarnings_setCamel (E : Externals) (f : String → Bool)
    (config : Option BuildConfig) (b : Pair) :
    itemWarnings (setCamel E f) config b = itemWarnings E config b := by
  cases hr : b.rule <;> simp [itemWarnings, traitFn_setCamel, setCamel_fnDeclParse, hr]

/-- Per-item panic behaviour does not depend on the upper-camel-case
predicate. -/
theorem itemOk_setCamel (E : Externals) (f : String → Bool)
    (config : Option BuildConfig) (b : Pair) :
    itemOk (setCamel E f) config b = itemOk E config b := by
  cases hr : b.rule <;> simp [itemOk, traitFn_setCamel, setCamel_fnDeclParse, hr]

/-- The recorded header visibility does not depend on the upper-camel-case
predicate. -/
theorem headerVis_setCamel (E : Externals) (f : String → Bool) (pre : List Pair) :
    headerVis (setCamel E f) pre = headerVis E pre := by
  cases pre with
  | nil => rfl
  | cons a t =>
    cases t with
    | nil => rfl
    | cons b t2 => cases t2 <;> rfl

/-- C6: a name that fails its naming convention (trait name against
upper-camel-case, method name against snake-case) still lowers to a usable
identifier carried in a present result; exactly one warning — the
naming-convention one — is added at the point of the check relative to a run
whose predicate accepts the same name, and the error sequence is unchanged. -/
theorem C6_case_style_independence :
    (∀ (E : Externals) (g : String → Bool) (pair : Pair) (config : Option BuildConfig)
       (pre : List Pair) (np : Pair) (parts : List Pair) (name : Ident),
       pair.children = pre ++ np :: parts → headerShape pre →
       (E.identParse np config).value = some name →
       E.is_upper_camel_case np.text.trim = false →
       g np.text.trim = true →
       (bodyChildrenOf (lookahead2 parts).2.2).all (itemOk E config) = true →
       lowVal (TraitDeclaration.parse_from_pair E pair config)
         = lowVal (TraitDeclaration.parse_from_pair (setCamel E g) pair config) ∧
       (lowVal (TraitDeclaration.parse_from_pair E pair config)).map TraitDeclaration.name
         = some name ∧
       lowErrs (TraitDeclaration.parse_from_pair E pair config)
         = lowErrs (TraitDeclaration.parse_from_pair (setCamel E g) pair config) ∧
       lowWarns (TraitDeclaration.parse_from_pair E pair config)
         = (E.identParse np config).warnings
           ++ [⟨name.span, Warning.NonClassCaseTraitName name⟩]
           ++ (concatMap (itemWarnings E config) (bodyChildrenOf (lookahead2 parts).2.2)
               ++ (E.typeParamsParse (lookahead2 parts).1 (lookahead2 parts).2.1
                     config).warnings) ∧
       lowWarns (TraitDeclaration.parse_from_pair (setCamel E g) pair config)
         = (E.identParse np config).warnings
           ++ (concatMap (itemWarnings E config) (bodyChildrenOf (lookahead2 parts).2.2)
               ++ (E.typeParamsParse (lookahead2 parts).1 (lookahead2 parts).2.1
                     config).warnings)) ∧
    (∀ (E : Externals) (g : String → Bool) (pair : Pair) (config : Option BuildConfig)
       (kw np pp : Pair) (sigTail : List Pair) (name : Ident),
       pair.children = kw :: np :: pp :: sigTail →
       (sigTail = [] ∨ ∃ a b2 t2, sigTail = a :: b2 :: t2) →
       (E.identParse np config).value = some name →
       E.is_snake_case name.text = false →
       g name.text = true →
       lowVal (TraitFn.parse_from_pair E pair config)
         = lowVal (TraitFn.parse_from_pair (setSnake E g) pair config) ∧
       (lowVal (TraitFn.parse_from_pair E pair config)).map TraitFn.name = some name ∧
       lowErrs (TraitFn.parse_from_pair E pair config)
         = lowErrs (TraitFn.parse_from_pair (setSnake E g) pair config) ∧
       lowWarns (TraitFn.parse_from_pair E pair config)
         = (E.identParse np config).warnings
           ++ [⟨⟨np.srcSpan, config.map BuildConfig.path⟩,
                Warning.NonSnakeCaseFunctionName name⟩]
           ++ ((E.paramListParse pp.children config).warnings
               ++ tailTyWarns E config sigTail) ∧
       lowWarns (TraitFn.parse_from_pair (setSnake E g) pair config)
         = (E.identParse np config).warnings
           ++ ((E.paramListParse pp.children config).warnings
               ++ tailTyWarns E config sigTail)) := by
  constructor
  · intro E g pair config pre np parts name hshape hpre hname hcf hct hallOk
    have hredE := parse_from_pair_reduce E pair config pre np parts hshape hpre
    have hredG := parse_from_pair_reduce (setCamel E g) pair config pre np parts hshape hpre
    rw [headerVis_setCamel] at hredG
    have camelE : camelWarnList E np name
        = [⟨name.span, Warning.NonClassCaseTraitName name⟩] := by
      simp [camelWarnList, hcf]
    have camelG : camelWarnList (setCamel E g) np name = [] := by
      simp [camelWarnList, setCamel_camel, hct]
    have hnameG : ((setCamel E g).identParse np config).value = some name := by
      rw [setCamel_identParse]; exact hname
    cases hbodyE : parseTraitMethods E config (bodyChildrenOf (lookahead2 parts).2.2) [] []
        ((E.identParse np config).warnings ++ camelWarnList E np name)
        (E.identParse np config).errors with
    | error pan =>
      exfalso
      have hx := parseTraitMethods_exOk E config (bodyChildrenOf (lookahead2 parts).2.2)
        [] [] ((E.identParse np config).warnings ++ camelWarnList E np name)
        (E.identParse np config).errors
      rw [hbodyE, hallOk] at hx
      simp [exOk] at hx
    | ok outE =>
      obtain ⟨i, m, w2, e2⟩ := outE
      cases hbodyG : parseTraitMethods E config (bodyChildrenOf (lookahead2 parts).2.2) [] []
          ((E.identParse np config).warnings ++ camelWarnList (setCamel E g) np name)
          (E.identParse np config).errors with
      | error pan =>
        exfalso
        have hx := parseTraitMethods_exOk E config (bodyChildrenOf (lookahead2 parts).2.2)
          [] [] ((E.identParse np config).warnings ++ camelWarnList (setCamel E g) np name)
          (E.identParse np config).errors
        rw [hbodyG, hallOk] at hx
        simp [exOk] at hx
      | ok outG =>
        obtain ⟨i2, m2, w2', e2'⟩ := outG
        have hbodyG' : parseTraitMethods (setCamel E g) config
            (bodyChildrenOf (lookahead2 parts).2.2) [] []
            (((setCamel E g).identParse np config).warnings
              ++ camelWarnList (setCamel E g) np name)
            ((setCamel E g).identParse np config).errors = .ok (i2, m2, w2', e2') := by
          rw [setCamel_identParse, parseTraitMethods_setCamel]
          exact hbodyG
        obtain ⟨h1, h2, h3, h4⟩ := parseTraitMethods_ok_eq E config
          (bodyChildrenOf (lookahead2 parts).2.2) [] [] _ _ i m w2 e2 hbodyE
        obtain ⟨h1', h2', h3', h4'⟩ := parseTraitMethods_ok_eq E config
          (bodyChildrenOf (lookahead2 parts).2.2) [] [] _ _ i2 m2 w2' e2' hbodyG
        have hokE := parseTail_ok_char E config (headerVis E pre) np parts name
          i m w2 e2 hname hbodyE
        have hokG := parseTail_ok_char (setCamel E g) config (headerVis E pre) np parts name
          i2 m2 w2' e2' hnameG hbodyG'
        rw [setCamel_typeParamsParse] at hokG
        rw [hredE, hokE, hredG, hokG]
        have hi : i2 = i := by rw [h1, h1']
        have hm : m2 = m := by rw [h2, h2']
        refine ⟨by simp [lowVal, ok, hi, hm], by simp [lowVal, ok], ?_, ?_, ?_⟩
        · simp only [lowErrs, ok]
          rw [h4, h4']
        · simp only [lowWarns, ok]
          rw [h3, camelE]
          simp [List.append_assoc]
        · simp only [lowWarns, ok]
          rw [h3', camelG]
          simp [List.append_assoc]
  · intro E g pair config kw np pp sigTail name hch hshape2 hname hsf hst
    have hnameG : ((setSnake E g).identParse np config).value = some name := by
      rw [setSnake_identParse]; exact hname
    rcases hshape2 with rfl | ⟨a, b2, t2, rfl⟩
    · refine ⟨?_, ?_, ?_, ?_, ?_⟩ <;>
        simp [TraitFn.parse_from_pair, hch, hname, hnameG, lowVal, lowErrs, lowWarns, ok,
          snakeWarnList, setSnake_identParse, setSnake_paramListParse, setSnake_typeInfoParse,
          setSnake_snake, hsf, hst, tailTyWarns, List.append_assoc]
    · refine ⟨?_, ?_, ?_, ?_, ?_⟩ <;>
        simp [TraitFn.parse_from_pair, hch, hname, hnameG, lowVal, lowErrs, lowWarns, ok,
          snakeWarnList, setSnake_identParse, setSnake_paramListParse, setSnake_typeInfoParse,
          setSnake_snake, hsf, hst, tailTyWarns, List.append_assoc]

/-- Witness for C1: a concrete declaration whose three-item body holds one
failing signature. -/
theorem C1_skip_on_failure_witness :
    itemSucceeds sampleExternals none badSig = false ∧
    itemErrors sampleExternals none badSig ≠ [] ∧
    (isPresent (TraitDeclaration.parse_from_pair sampleExternals c1pair none) = true ∧
     (lowVal (TraitDeclaration.parse_from_pair sampleExternals c1pair none)).map
         (fun td => td.interface_surface.length + td.methods.length + 1)
       = some (bodyChildrenOf (lookahead2 [c1body]).2.2).length ∧
     lowErrs (TraitDeclaration.parse_from_pair sampleExternals c1pair none) ≠ []) :=
  ⟨rfl, by decide,
   C1_skip_on_failure sampleExternals c1pair none [kwPair] namePair [c1body] fooIdent
     [goodSig] [goodDecl] badSig rfl (Or.inl ⟨kwPair, rfl, by decide⟩) rfl rfl
     (by decide) (by decide) rfl rfl (by decide)⟩

/-- Witness for C2: a concrete declaration whose own name fails to lower. -/
theorem C2_err_iff_name_fails_witness :
    exOk (TraitDeclaration.parse_from_pair sampleExternals c2pair none) = true ∧
    (isPresent (TraitDeclaration.parse_from_pair sampleExternals c2pair none) = false ↔
      (sampleExternals.identParse badNamePair none).value = none) :=
  ⟨rfl, C2_err_iff_name_fails sampleExternals c2pair none [kwPair] badNamePair [] rfl
     (Or.inl ⟨kwPair, rfl, by decide⟩) rfl⟩

/-- Witness for C3: a concrete two-item body run of the loop. -/
theorem C3_diagnostic_concatenation_witness :
    parseTraitMethods sampleExternals none [goodSig, goodDecl] [] [] [] []
      = .ok ([tfBar], [⟨0⟩], [], []) ∧
    (([] : List CompileWarning)
        = [] ++ concatMap (itemWarnings sampleExternals none) [goodSig, goodDecl] ∧
     ([] : List CompileError)
        = [] ++ concatMap (itemErrors sampleExternals none) [goodSig, goodDecl]) :=
  ⟨rfl, C3_diagnostic_concatenation sampleExternals none [goodSig, goodDecl] [] [] [] []
     [tfBar] [⟨0⟩] [] [] rfl⟩

/-- Witness for C4: a concrete three-item body run of the loop. -/
theorem C4_partition_witness :
    parseTraitMethods sampleExternals none [goodSig, badSig, goodDecl] [] [] [] []
      = .ok ([tfBar], [⟨0⟩], [], [CompileError.other 0 ⟨⟨3, 6⟩, none⟩]) ∧
    ([tfBar] = [goodSig, badSig, goodDecl].filterMap (sigRoute sampleExternals none) ∧
     [(⟨0⟩ : FunctionDeclaration)]
        = [goodSig, badSig, goodDecl].filterMap (declRoute sampleExternals none) ∧
     (∀ b ∈ [goodSig, badSig, goodDecl],
       ¬((sigRoute sampleExternals none b).isSome ∧ (declRoute sampleExternals none b).isSome)) ∧
     (∀ b ∈ [goodSig, badSig, goodDecl], itemSucceeds sampleExternals none b = true →
       (sigRoute sampleExternals none b).isSome ∨ (declRoute sampleExternals none b).isSome)) :=
  ⟨rfl, C4_partition sampleExternals none [goodSig, badSig, goodDecl] [] []
     [tfBar] [⟨0⟩] [] [CompileError.other 0 ⟨⟨3, 6⟩, none⟩] rfl⟩

/-- Witness for C5: a concrete signature without and a concrete signature
with a return-type marker. -/
theorem C5_return_type_attribution_witness :
    (sampleExternals.identParse fnName none).value = some barIdent ∧
    ((lowVal (TraitFn.parse_from_pair sampleExternals goodSig none)).map TraitFn.return_type
        = some (TypeInfo.Tuple []) ∧
     (lowVal (TraitFn.parse_from_pair sampleExternals goodSig none)).map TraitFn.return_type_span
        = some ⟨goodSig.srcSpan, none⟩) ∧
    (lowVal (TraitFn.parse_from_pair sampleExternals sigWithTy none)).map TraitFn.return_type_span
        = some ⟨tyPair.srcSpan, none⟩ :=
  ⟨rfl,
   C5_return_type_attribution.1 sampleExternals goodSig none fnKw fnName fnParams barIdent
     rfl rfl,
   C5_return_type_attribution.2 sampleExternals sigWithTy none fnKw fnName fnParams
     arrowPair tyPair [] barIdent rfl rfl⟩

/-- Witness for C6: a concrete badly-cased trait name and a concrete
badly-cased method name, each compared with an accepting predicate. -/
theorem C6_case_style_independence_witness :
    (setCamel sampleExternals fun _ => false).is_upper_camel_case quxPair.text.trim = false ∧
    sampleExternals.is_snake_case fooFnIdent.text = false ∧
    (lowVal (TraitDeclaration.parse_from_pair (setCamel sampleExternals fun _ => false)
        c6pair none)
      = lowVal (TraitDeclaration.parse_from_pair
          (setCamel (setCamel sampleExternals fun _ => false) fun _ => true) c6pair none) ∧
     (lowVal (TraitDeclaration.parse_from_pair (setCamel sampleExternals fun _ => false)
        c6pair none)).map TraitDeclaration.name = some quxIdent ∧
     lowErrs (TraitDeclaration.parse_from_pair (setCamel sampleExternals fun _ => false)
        c6pair none)
      = lowErrs (TraitDeclaration.parse_from_pair
          (setCamel (setCamel sampleExternals fun _ => false) fun _ => true) c6pair none) ∧
     lowWarns (TraitDeclaration.parse_from_pair (setCamel sampleExternals fun _ => false)
        c6pair none)
      = [⟨quxIdent.span, Warning.NonClassCaseTraitName quxIdent⟩] ∧
     lowWarns (TraitDeclaration.parse_from_pair
        (setCamel (setCamel sampleExternals fun _ => false) fun _ => true) c6pair none)
      = []) ∧
    (lowVal (TraitFn.parse_from_pair sampleExternals fooSig none)
      = lowVal (TraitFn.parse_from_pair (setSnake sampleExternals fun _ => true) fooSig none) ∧
     (lowVal (TraitFn.parse_from_pair sampleExternals fooSig none)).map TraitFn.name
      = some fooFnIdent ∧
     lowErrs (TraitFn.parse_from_pair sampleExternals fooSig none)
      = lowErrs (TraitFn.parse_from_pair (setSnake sampleExternals fun _ => true) fooSig none) ∧
     lowWarns (TraitFn.parse_from_pair sampleExternals fooSig none)
      = [⟨⟨⟨3, 6⟩, none⟩, Warning.NonSnakeCaseFunctionName fooFnIdent⟩] ∧
     lowWarns (TraitFn.parse_from_pair (setSnake sampleExternals fun _ => true) fooSig none)
      = []) :=
  ⟨rfl, rfl,
   C6_case_style_independence.1 (setCamel sampleExternals fun _ => false) (fun _ => true)
     c6pair none [kwPair] quxPair [] quxIdent rfl (Or.inl ⟨kwPair, rfl, by decide⟩)
     rfl rfl rfl rfl,
   C6_case_style_independence.2 sampleExternals (fun _ => true) fooSig none
     fnKw fnFooName fnParams [] fooFnIdent rfl (Or.inl rfl) rfl rfl rfl⟩

/-- Witness for C7: concrete lookahead inputs in each arrangement. -/
theorem C7_two_slot_lookahead_witness :
    tpPair.rule = Rule.type_params ∧ wcPair.rule = Rule.trait_bounds ∧
    lookahead2 [tpPair, wcPair] = (some tpPair, some wcPair, []) ∧
    lookahead2 [wcPair, tpPair] = (some tpPair, some wcPair, []) ∧
    lookahead2 [goodSig] = (none, none, [goodSig]) :=
  ⟨rfl, rfl,
   C7_two_slot_lookahead.2.2.1 tpPair wcPair [] rfl rfl,
   C7_two_slot_lookahead.2.2.2.1 wcPair tpPair [] rfl rfl,
   C7_two_slot_lookahead.2.1 goodSig [] (by decide) (by decide)⟩

/-- Witness for C8: a concrete signature whose explicit return type fails to
lower. -/
theorem C8_error_recovery_return_type_witness :
    (sampleExternals.typeInfoParse badTyPair none).value = none ∧
    (isPresent (TraitFn.parse_from_pair sampleExternals sigBadTy none) = true ∧
     (lowVal (TraitFn.parse_from_pair sampleExternals sigBadTy none)).map TraitFn.return_type
        = some TypeInfo.ErrorRecovery ∧
     lowErrs (TraitFn.parse_from_pair sampleExternals sigBadTy none)
        = (sampleExternals.identParse fnName none).errors
          ++ (sampleExternals.paramListParse fnParams.children none).errors
          ++ (sampleExternals.typeInfoParse badTyPair none).errors) :=
  ⟨rfl, C8_error_recovery_return_type sampleExternals sigBadTy none fnKw fnName fnParams
     arrowPair badTyPair [] barIdent rfl rfl rfl⟩

/-- Witness for C9: a concrete declaration without and a concrete declaration
with an explicit visibility modifier. -/
theorem C9_visibility_default_witness :
    kwPair.rule ≠ Rule.visibility ∧ visPair.rule = Rule.visibility ∧
    c9td.visibility = Visibility.Private ∧
    c9tdPub.visibility = sampleExternals.visibilityParse visPair :=
  ⟨by decide, rfl,
   C9_visibility_default.1 sampleExternals c9pair none kwPair [namePair] (ok c9td [] []) c9td
     rfl (by decide) rfl rfl,
   C9_visibility_default.2 sampleExternals c9vpair none visPair [kwPair, namePair]
     (ok c9tdPub [] []) c9tdPub rfl rfl rfl rfl⟩

/-- Witness for C10: a concrete declaration whose body holds a bad-tagged
child, and a concrete declaration with only expected tags. -/
theorem C10_unreachable_tag_witness :
    badTag.rule ≠ Rule.fn_signature ∧ badTag.rule ≠ Rule.fn_decl ∧
    TraitDeclaration.parse_from_pair sampleExternals c10pair none
      = .error Panic.unreachableTag ∧
    TraitDeclaration.parse_from_pair sampleExternals c9pair none
      ≠ .error Panic.unreachableTag :=
  ⟨by decide, by decide,
   C10_unreachable_tag.1 sampleExternals c10pair none [kwPair] namePair [badBody] fooIdent
     [] [] badTag rfl (Or.inl ⟨kwPair, rfl, by decide⟩) rfl rfl (by decide)
     (by decide) (by decide),
   C10_unreachable_tag.2 sampleExternals c9pair none [kwPair] namePair [] rfl
     (Or.inl ⟨kwPair, rfl, by decide⟩) (by decide)⟩

end Sway
